import Mathlib

/-!
Verification of the quad-net networking core: a shallow embedding of
`src/http_request.rs` (Method, HttpError, Request, RequestBuilder) and
`src/quad_socket/client/tcp.rs` (TcpSocket), together with theorems about
the polling, framing and builder behaviour.

Bytes are modelled as `Nat` values (< 256 in every reachable state), byte
buffers as `List Nat`, and a Rust `String` by its UTF-8 byte sequence.
Stateful methods taking `&mut self` become functions returning the result
paired with the updated state.
-/

namespace QuadNet

/-- `Method` from src/http_request.rs. -/
inductive Method where
  | Post
  | Put
  | Get
  | Delete
deriving DecidableEq, Repr

/-- `HttpError` from src/http_request.rs. `UreqError` wraps an opaque
`ureq::Error`; its diagnostic payload is modelled by a `Nat` tag. -/
inductive HttpError where
  | IOError
  | NotStrError
  | UreqError (detail : Nat)
deriving DecidableEq, Repr

/-- One continuation byte of a UTF-8 sequence (0x80–0xBF). -/
def utf8Cont (b : Nat) : Bool := 0x80 ≤ b && b ≤ 0xBF

/-- The UTF-8 validity check performed by Rust's `String::from_utf8`
(std's `run_utf8_validation`): ASCII bytes stand alone; leading bytes
0xC2–0xDF, 0xE0–0xEF and 0xF0–0xF4 demand one, two and three continuation
bytes with the standard range restrictions on the first continuation byte
after 0xE0, 0xED, 0xF0 and 0xF4; everything else is invalid. -/
def utf8Valid : List Nat → Bool
  | [] => true
  | b :: rest =>
    if b ≤ 0x7F then utf8Valid rest
    else if 0xC2 ≤ b && b ≤ 0xDF then
      match rest with
      | c1 :: r => utf8Cont c1 && utf8Valid r
      | [] => false
    else if b = 0xE0 then
      match rest with
      | c1 :: c2 :: r => (0xA0 ≤ c1 && c1 ≤ 0xBF) && utf8Cont c2 && utf8Valid r
      | _ => false
    else if (0xE1 ≤ b && b ≤ 0xEC) || (0xEE ≤ b && b ≤ 0xEF) then
      match rest with
      | c1 :: c2 :: r => utf8Cont c1 && utf8Cont c2 && utf8Valid r
      | _ => false
    else if b = 0xED then
      match rest with
      | c1 :: c2 :: r => (0x80 ≤ c1 && c1 ≤ 0x9F) && utf8Cont c2 && utf8Valid r
      | _ => false
    else if b = 0xF0 then
      match rest with
      | c1 :: c2 :: c3 :: r =>
          (0x90 ≤ c1 && c1 ≤ 0xBF) && utf8Cont c2 && utf8Cont c3 && utf8Valid r
      | _ => false
    else if 0xF1 ≤ b && b ≤ 0xF3 then
      match rest with
      | c1 :: c2 :: c3 :: r =>
          utf8Cont c1 && utf8Cont c2 && utf8Cont c3 && utf8Valid r
      | _ => false
    else if b = 0xF4 then
      match rest with
      | c1 :: c2 :: c3 :: r =>
          (0x80 ≤ c1 && c1 ≤ 0x8F) && utf8Cont c2 && utf8Cont c3 && utf8Valid r
      | _ => false
    else false

/-- Rust's `String::from_utf8(res).map_err(|_| HttpError::NotStrError)`:
the decoded `String` is represented by its byte sequence. -/
def from_utf8 (res : List Nat) : Except HttpError (List Nat) :=
  if utf8Valid res then .ok res else .error .NotStrError

deriving instance DecidableEq for Except

/-- State of the one-shot `std::sync::mpsc` channel created by the
threaded `RequestBuilder::send`: nothing sent yet, one value sent and not
yet received, or the single value already consumed by `try_recv`. -/
inductive OneShot (α : Type) where
  | pending
  | delivered (v : α)
  | exhausted
deriving DecidableEq, Repr

/-- `Receiver::try_recv`: non-blocking; removes and returns the value when
one is present, otherwise reports emptiness (`Err(TryRecvError)`,
modelled as `none`) and leaves the state unchanged. -/
def OneShot.tryRecv {α : Type} : OneShot α → Option α × OneShot α
  | .pending => (none, .pending)
  | .delivered v => (some v, .exhausted)
  | .exhausted => (none, .exhausted)

/-- The threaded `Request` (non-wasm32): the receiving half of the
one-shot channel carrying `Result<Vec<u8>, HttpError>`. -/
structure Request where
  rx : OneShot (Except HttpError (List Nat))
deriving DecidableEq, Repr

/-- `Request::try_recv_str` (non-wasm32): `try_recv` on the channel; an
`Ok` payload is passed through `String::from_utf8`, an `Err` is forwarded,
an empty channel yields `None`. -/
def Request.try_recv_str (r : Request) :
    Option (Except HttpError (List Nat)) × Request :=
  match r.rx.tryRecv with
  | (some (.ok res), rx') => (some (from_utf8 res), ⟨rx'⟩)
  | (some (.error e), rx') => (some (.error e), ⟨rx'⟩)
  | (none, rx') => (none, ⟨rx'⟩)

/-- `Request::try_recv_bytes` (non-wasm32):
`Some(self.rx.try_recv().ok()?.ok()?)` — the channel value is consumed by
`try_recv` and then an `Err` payload is discarded by the second `.ok()?`. -/
def Request.try_recv_bytes (r : Request) : Option (List Nat) × Request :=
  match r.rx.tryRecv with
  | (some (.ok res), rx') => (some res, ⟨rx'⟩)
  | (some (.error _), rx') => (none, ⟨rx'⟩)
  | (none, rx') => (none, ⟨rx'⟩)

/-- Results of `n` successive `try_recv_bytes` calls on a `Request`. -/
def Request.pollBytesTrace (r : Request) : Nat → List (Option (List Nat))
  | 0 => []
  | n + 1 =>
    let p := r.try_recv_bytes
    p.1 :: p.2.pollBytesTrace n

/-- Results of `n` successive `try_recv_str` calls on a `Request`. -/
def Request.pollStrTrace (r : Request) :
    Nat → List (Option (Except HttpError (List Nat)))
  | 0 => []
  | n + 1 =>
    let p := r.try_recv_str
    p.1 :: p.2.pollStrTrace n

/-- `Sender::send`: succeeds while the `Receiver` is alive and returns
`Err(SendError)` once the receiver has been dropped. -/
def mpscSend (receiverAlive : Bool) : Except Unit Unit :=
  if receiverAlive then .ok () else .error ()

/-- Final state of the spawned worker thread. -/
inductive WorkerOutcome where
  | finished
  | panicked
deriving DecidableEq, Repr

/-- The last statement of the worker spawned by the threaded
`RequestBuilder::send`: `tx.send(response).unwrap()`. `unwrap` on the
`Err` returned by a send to a dropped receiver panics the worker thread. -/
def workerDeliver (receiverAlive : Bool) : WorkerOutcome :=
  match mpscSend receiverAlive with
  | .ok _ => .finished
  | .error _ => .panicked

/-- `RequestBuilder` from src/http_request.rs. -/
structure RequestBuilder where
  url : String
  method : Method
  headers : List (String × String)
  query : List (String × String)
  body : Option String
deriving DecidableEq, Repr

/-- `RequestBuilder::new(url)`. -/
def RequestBuilder.new (url : String) : RequestBuilder :=
  { url := url
    method := .Get
    headers := []
    query := []
    body := none }

/-- `RequestBuilder::method(m)` (primed: the field is named `method`). -/
def RequestBuilder.method' (b : RequestBuilder) (method : Method) :
    RequestBuilder :=
  { b with method := method }

/-- `RequestBuilder::header(name, value)`: push onto the headers vector. -/
def RequestBuilder.header (b : RequestBuilder) (header value : String) :
    RequestBuilder :=
  { b with headers := b.headers ++ [(header, value)] }

/-- `RequestBuilder::query(key, value)`: push onto the query vector
(primed: the field is named `query`). -/
def RequestBuilder.query' (b : RequestBuilder) (key value : String) :
    RequestBuilder :=
  { b with query := b.query ++ [(key, value)] }

/-- `RequestBuilder::body(text)`: overwrite the optional body
(primed: the field is named `body`). -/
def RequestBuilder.body' (b : RequestBuilder) (body : String) :
    RequestBuilder :=
  { b with body := some body }

/-- One header or query append, for reasoning about arbitrary sequences
of the two append operations. -/
inductive BuilderOp where
  | h (n v : String)
  | q (k v : String)
deriving DecidableEq, Repr

/-- Apply one append operation. -/
def applyOp (b : RequestBuilder) : BuilderOp → RequestBuilder
  | .h n v => b.header n v
  | .q k v => b.query' k v

/-- Apply a sequence of append operations in order. -/
def applyOps (b : RequestBuilder) (ops : List BuilderOp) : RequestBuilder :=
  ops.foldl applyOp b

/-- The header pairs of an operation sequence, in order. -/
def hPairs (ops : List BuilderOp) : List (String × String) :=
  ops.filterMap fun op =>
    match op with
    | .h n v => some (n, v)
    | .q _ _ => none

/-- The query pairs of an operation sequence, in order. -/
def qPairs (ops : List BuilderOp) : List (String × String) :=
  ops.filterMap fun op =>
    match op with
    | .h _ _ => none
    | .q k v => some (k, v)

/-- The header/query state the threaded `RequestBuilder::send` accumulates
on the ureq request: each loop iteration appends one pair
(`request = request.header(header, value)` resp. `.query(key, value)`;
ureq appends without de-duplication). -/
structure UreqRequest where
  hdrs : List (String × String)
  queryParams : List (String × String)
deriving DecidableEq, Repr

/-- The two application loops of the threaded `RequestBuilder::send`,
folding the builder's headers and then its query pairs onto the request. -/
def sendLoops (b : RequestBuilder) : UreqRequest :=
  let r0 : UreqRequest := ⟨[], []⟩
  let r1 := b.headers.foldl
    (fun r p => { r with hdrs := r.hdrs ++ [p] }) r0
  b.query.foldl
    (fun r p => { r with queryParams := r.queryParams ++ [p] }) r1

/-- The scheme code computed by the wasm32 `RequestBuilder::send`. -/
def schemeCode : Method → Nat
  | .Post => 0
  | .Put => 1
  | .Get => 2
  | .Delete => 3

/-- `Vec::join("&")` from the wasm32 `RequestBuilder::send`: the strings
with `&` inserted between consecutive elements. -/
def joinAmp : List String → String
  | [] => ""
  | [a] => a
  | a :: b :: rest => a ++ "&" ++ joinAmp (b :: rest)

/-- The URL built by the wasm32 `RequestBuilder::send`: the original url,
and when the query vector is non-empty, `?` followed by the `&`-joined
`key=value` strings. -/
def buildUrl (b : RequestBuilder) : String :=
  if b.query.isEmpty then b.url
  else b.url ++ "?" ++ joinAmp (b.query.map fun p => p.1 ++ "=" ++ p.2)

/-- The spec's description of the query suffix, written independently of
the source: the `key=value` pairs joined by `&` in insertion order. -/
def joinQuerySpec : List (String × String) → String
  | [] => ""
  | [(k, v)] => k ++ "=" ++ v
  | (k, v) :: p :: rest => k ++ "=" ++ v ++ "&" ++ joinQuerySpec (p :: rest)

/-- One call through the host boundary
`http_make_request(scheme, url, body, headers)`. -/
structure HostCall where
  scheme : Nat
  url : String
  body : String
  headers : List (String × String)
deriving DecidableEq, Repr

/-- The wasm32 `Request`: an opaque correlation id. -/
structure RequestWasm where
  cid : Int
deriving DecidableEq, Repr

/-- The wasm32 `RequestBuilder::send`, with the host's
`http_make_request` as an injected capability: it computes the scheme
code, passes the headers through, builds the URL, issues the listed host
calls (exactly one) and returns the correlation id immediately. -/
def sendWasm (b : RequestBuilder) (host : HostCall → Int) :
    List HostCall × RequestWasm :=
  let call : HostCall :=
    { scheme := schemeCode b.method
      url := buildUrl b
      body := (b.body.getD "")
      headers := b.headers }
  ([call], ⟨host call⟩)

/-- `TcpSocket` from src/quad_socket/client/tcp.rs: the write half of the
stream (modelled by the bytes written so far) and the receiving end of
the FIFO channel fed by the background reader thread. -/
structure TcpSocket where
  outBytes : List Nat
  rx : List (List Nat)
deriving DecidableEq, Repr

/-- The frame `TcpSocket::send` emits for a payload: one length byte
(`data.len() as u8`, i.e. the length reduced mod 256) followed by the
payload bytes. -/
def frameOf (data : List Nat) : List Nat :=
  (data.length % 256) :: data

/-- `TcpSocket::send(data)`: write the length byte, then the payload,
synchronously on the caller's thread. -/
def TcpSocket.send (s : TcpSocket) (data : List Nat) : TcpSocket :=
  { s with outBytes := s.outBytes ++ frameOf data }

/-- `TcpSocket::try_recv`: non-blocking pop from the delivery queue
(`self.rx.try_recv().ok()`). -/
def TcpSocket.try_recv (s : TcpSocket) : Option (List Nat) × TcpSocket :=
  match s.rx with
  | [] => (none, s)
  | m :: rest => (some m, { s with rx := rest })

/-- Results of `n` successive `try_recv` calls on a `TcpSocket`. -/
def TcpSocket.recvTrace (s : TcpSocket) : Nat → List (Option (List Nat))
  | 0 => []
  | n + 1 =>
    let p := s.try_recv
    p.1 :: p.2.recvTrace n

/-- Modelled from the spec: `MessageReader`'s resumable state
(src/quad_socket/protocol.rs is not under src/) — the expected length of
the frame being assembled, when a length byte has been read, and the
payload bytes accumulated so far. -/
structure MessageReader where
  expected : Option Nat
  buffer : List Nat
deriving DecidableEq, Repr

/-- Modelled from the spec: `MessageReader::new` starts with no length
known and an empty buffer. -/
def MessageReader.new : MessageReader := ⟨none, []⟩

/-- Modelled from the spec: feeding the resumable decoder one byte — with
no length known the byte is the next frame's length (a zero-length frame
completes at once); otherwise the byte joins the accumulated payload,
completing the frame when the expected length is reached. -/
def MessageReader.feed (r : MessageReader) (b : Nat) :
    MessageReader × Option (List Nat) :=
  match r.expected with
  | none => if b = 0 then (.new, some []) else (⟨some b, []⟩, none)
  | some n =>
    let buf := r.buffer ++ [b]
    if buf.length = n then (.new, some buf) else (⟨some n, buf⟩, none)

/-- Run the decoder over a byte stream, collecting the completed frames
in completion order. -/
def MessageReader.run (r : MessageReader) :
    List Nat → MessageReader × List (List Nat)
  | [] => (r, [])
  | b :: rest =>
    let (r', m) := r.feed b
    let (r'', ms) := r'.run rest
    (r'', (m.toList.map id) ++ ms)

/-- The frames the background decoder completes on a given incoming byte
stream, in completion order. -/
def framesCompleted (stream : List Nat) : List (List Nat) :=
  (MessageReader.new.run stream).2

/-- The outcome of one `messages.next(&mut stream)` call inside the
background reader loop: a read/decode failure (`Err`), no complete frame
yet (`Ok(None)`), or one completed frame (`Ok(Some(message)))`. -/
def okSome (r : Except Unit (Option (List Nat))) : Option (List Nat) :=
  match r with
  | .ok (some m) => some m
  | _ => none

/-- One iteration of the background reader loop in `TcpSocket::connect`:
`if let Ok(Some(message)) = messages.next(&mut stream) { tx.send(message) }`
— only a completed frame is pushed onto the delivery queue; failures and
incomplete reads leave the queue unchanged and the loop continues. -/
def readerLoopStep (acc : List (List Nat))
    (r : Except Unit (Option (List Nat))) : List (List Nat) :=
  match r with
  | .ok (some m) => acc ++ [m]
  | _ => acc

/-- The messages the background reader loop has delivered after a given
sequence of `messages.next` outcomes. -/
def readerLoopRun (rs : List (Except Unit (Option (List Nat)))) :
    List (List Nat) :=
  rs.foldl readerLoopStep []

/-! ## Helper lemmas -/

theorem pollBytesTrace_pending (n : Nat) :
    Request.pollBytesTrace ⟨.pending⟩ n = List.replicate n none := by
  induction n with
  | zero => rfl
  | succ n ih =>
    simp [Request.pollBytesTrace, Request.try_recv_bytes, OneShot.tryRecv,
      List.replicate, ih]

theorem pollBytesTrace_exhausted (n : Nat) :
    Request.pollBytesTrace ⟨.exhausted⟩ n = List.replicate n none := by
  induction n with
  | zero => rfl
  | succ n ih =>
    simp [Request.pollBytesTrace, Request.try_recv_bytes, OneShot.tryRecv,
      List.replicate, ih]

theorem pollStrTrace_pending (n : Nat) :
    Request.pollStrTrace ⟨.pending⟩ n = List.replicate n none := by
  induction n with
  | zero => rfl
  | succ n ih =>
    simp [Request.pollStrTrace, Request.try_recv_str, OneShot.tryRecv,
      List.replicate, ih]

theorem pollStrTrace_exhausted (n : Nat) :
    Request.pollStrTrace ⟨.exhausted⟩ n = List.replicate n none := by
  induction n with
  | zero => rfl
  | succ n ih =>
    simp [Request.pollStrTrace, Request.try_recv_str, OneShot.tryRecv,
      List.replicate, ih]

theorem recvTrace_drained (out : List Nat) (k : Nat) :
    TcpSocket.recvTrace ⟨out, []⟩ k = List.replicate k none := by
  induction k with
  | zero => rfl
  | succ k ih =>
    simp [TcpSocket.recvTrace, TcpSocket.try_recv, List.replicate, ih]

theorem recvTrace_queue (frames : List (List Nat)) (out : List Nat) (k : Nat) :
    TcpSocket.recvTrace ⟨out, frames⟩ (frames.length + k)
      = frames.map some ++ List.replicate k none := by
  induction frames with
  | nil => simpa using recvTrace_drained out k
  | cons m rest ih =>
    have : rest.length + 1 + k = (rest.length + k) + 1 := by omega
    simp only [List.length_cons, this, TcpSocket.recvTrace,
      TcpSocket.try_recv, List.map_cons, List.cons_append]
    exact congrArg _ ih

theorem foldl_readerLoopStep (rs : List (Except Unit (Option (List Nat))))
    (acc : List (List Nat)) :
    rs.foldl readerLoopStep acc = acc ++ rs.filterMap okSome := by
  induction rs generalizing acc with
  | nil => simp
  | cons r rest ih =>
    cases r with
    | error e =>
      simp [readerLoopStep, okSome, List.filterMap_cons, ih]
    | ok o =>
      cases o with
      | none => simp [readerLoopStep, okSome, List.filterMap_cons, ih]
      | some m => simp [readerLoopStep, okSome, List.filterMap_cons, ih]

theorem applyOps_eq (ops : List BuilderOp) (b : RequestBuilder) :
    applyOps b ops =
      ⟨b.url, b.method, b.headers ++ hPairs ops, b.query ++ qPairs ops,
        b.body⟩ := by
  induction ops generalizing b with
  | nil => simp [applyOps, hPairs, qPairs]
  | cons op rest ih =>
    cases op with
    | h n v =>
      simp [applyOps, List.foldl_cons, applyOp, RequestBuilder.header,
        hPairs, qPairs, List.filterMap_cons] at *
      simp [ih]
    | q k v =>
      simp [applyOps, List.foldl_cons, applyOp, RequestBuilder.query',
        hPairs, qPairs, List.filterMap_cons] at *
      simp [ih]

theorem foldl_hdrStep (hs : List (String × String)) (r : UreqRequest) :
    hs.foldl (fun r p => { r with hdrs := r.hdrs ++ [p] }) r
      = ⟨r.hdrs ++ hs, r.queryParams⟩ := by
  induction hs generalizing r with
  | nil => simp
  | cons p rest ih => simp [List.foldl_cons, ih]

theorem foldl_qryStep (qs : List (String × String)) (r : UreqRequest) :
    qs.foldl (fun r p => { r with queryParams := r.queryParams ++ [p] }) r
      = ⟨r.hdrs, r.queryParams ++ qs⟩ := by
  induction qs generalizing r with
  | nil => simp
  | cons p rest ih => simp [List.foldl_cons, ih]

theorem sendLoops_eq (b : RequestBuilder) :
    sendLoops b = ⟨b.headers, b.query⟩ := by
  simp [sendLoops, foldl_hdrStep, foldl_qryStep]

theorem joinAmp_eq_spec (qs : List (String × String)) :
    joinAmp (qs.map fun p => p.1 ++ "=" ++ p.2) = joinQuerySpec qs := by
  induction qs with
  | nil => rfl
  | cons p rest ih =>
    cases rest with
    | nil => rfl
    | cons p2 r2 =>
      simp only [List.map_cons, joinAmp, joinQuerySpec]
      rw [← ih]
      simp [joinAmp]

/-! ## Claim theorems -/

/-- C1, counterexample: the claim that polling one path does not discard
or consume the value needed by the other path is false. For a Request
delivered the non-UTF-8 payload `[255]`, `try_recv_str` yields
`NotStrError`, but it consumes the one-shot value, so the subsequent
`try_recv_bytes` yields `none` instead of the raw bytes. -/
theorem C1_counterexample :
    ((Request.mk (.delivered (.ok [255]))).try_recv_str).1
        = some (.error HttpError.NotStrError) ∧
    (((Request.mk (.delivered (.ok [255]))).try_recv_str).2.try_recv_bytes).1
        = none := by
  decide

/-- C1, amended: for a threaded Request delivered a non-UTF-8 byte
payload, whichever polling path runs first observes its own view —
`NotStrError` from `try_recv_str`, the raw bytes from `try_recv_bytes` —
but that first poll consumes the one-shot value, so the other path
afterwards reports pending. -/
theorem C1_nonUtf8_first_poll (b : List Nat) (h : utf8Valid b = false) :
    ((Request.mk (.delivered (.ok b))).try_recv_str).1
        = some (.error HttpError.NotStrError) ∧
    ((Request.mk (.delivered (.ok b))).try_recv_bytes).1 = some b ∧
    (((Request.mk (.delivered (.ok b))).try_recv_str).2.try_recv_bytes).1
        = none ∧
    (((Request.mk (.delivered (.ok b))).try_recv_bytes).2.try_recv_str).1
        = none := by
  simp [Request.try_recv_str, Request.try_recv_bytes, OneShot.tryRecv,
    from_utf8, h]

/-- C1, witness for the amended theorem at the payload `[255]`. -/
theorem C1_witness :
    ((Request.mk (.delivered (.ok [255]))).try_recv_bytes).1 = some [255] :=
  (C1_nonUtf8_first_poll [255] (by decide)).2.1

/-- C2, counterexample: the claim that polling yields the single Result
exactly once on the first call after delivery is false for
`try_recv_bytes` when the delivered outcome is an error: the first call
after delivery yields `none`, not the Result. -/
theorem C2_counterexample :
    ((Request.mk (.delivered (.error HttpError.IOError))).try_recv_bytes).1
        = none := by
  decide

/-- C2, amended: polling is non-blocking; before delivery every
`try_recv_bytes`/`try_recv_str` call yields pending, so a transport that
never completes yields pending on every poll indefinitely; after delivery
the first poll consumes the one-shot value — `try_recv_str` yields the
Result exactly once (with an Ok payload UTF-8-validated), and
`try_recv_bytes` yields the payload exactly once when the outcome is Ok
but consumes an Err outcome and yields `none` for it — and every call
after that consumption yields pending. -/
theorem C2_poll_protocol (v : List Nat) (e : HttpError) (n : Nat) :
    Request.pollBytesTrace ⟨.pending⟩ n = List.replicate n none ∧
    Request.pollStrTrace ⟨.pending⟩ n = List.replicate n none ∧
    Request.pollBytesTrace ⟨.delivered (.ok v)⟩ (n + 1)
        = some v :: List.replicate n none ∧
    Request.pollStrTrace ⟨.delivered (.ok v)⟩ (n + 1)
        = some (from_utf8 v) :: List.replicate n none ∧
    Request.pollStrTrace ⟨.delivered (.error e)⟩ (n + 1)
        = some (.error e) :: List.replicate n none ∧
    Request.pollBytesTrace ⟨.delivered (.error e)⟩ (n + 1)
        = List.replicate (n + 1) none := by
  refine ⟨pollBytesTrace_pending n, pollStrTrace_pending n, ?_, ?_, ?_, ?_⟩ <;>
    simp [Request.pollBytesTrace, Request.pollStrTrace,
      Request.try_recv_bytes, Request.try_recv_str, OneShot.tryRecv,
      pollBytesTrace_exhausted, pollStrTrace_exhausted, List.replicate]

/-- C3, counterexample: the claim that the worker never faults when
delivering to a discarded receiver is false — the worker runs
`tx.send(response).unwrap()`, and once the receiver has been dropped the
send returns an error that `unwrap` turns into a panic of the worker
thread. -/
theorem C3_counterexample : workerDeliver false = .panicked := by
  decide

/-- C3, amended: if the Request handle is dropped before the worker
finishes, the `Sender::send` itself fails cleanly with an error (the
value is simply dropped), but the worker unwraps that result, so the
worker thread panics instead of completing as a no-op; with the receiver
alive the worker delivers and finishes normally. -/
theorem C3_send_after_drop :
    mpscSend false = .error () ∧
    workerDeliver false = .panicked ∧
    workerDeliver true = .finished := by
  decide

/-- C4: `TcpSocket::send` emits one length byte followed by the payload:
for payloads of length ≤ 255 the length byte equals the payload length;
an empty payload writes exactly the single byte 0; and for every payload
(any length, including ≥ 256, which send does not validate) the emitted
frame carries the full payload after the length byte — nothing is
silently truncated. -/
theorem C4_send_frame (s : TcpSocket) (data : List Nat) :
    (data.length ≤ 255 →
      (s.send data).outBytes = s.outBytes ++ data.length :: data) ∧
    (s.send []).outBytes = s.outBytes ++ [0] ∧
    (frameOf data).drop 1 = data ∧
    (frameOf data).length = data.length + 1 := by
  refine ⟨fun h => ?_, ?_, ?_, ?_⟩
  · simp [TcpSocket.send, frameOf,
      Nat.mod_eq_of_lt (Nat.lt_succ_of_le h)]
  · simp [TcpSocket.send, frameOf]
  · simp [frameOf]
  · simp [frameOf]

/-- C4, witness at the payload `[7, 8, 9]`. -/
theorem C4_witness :
    ((TcpSocket.mk [] []).send [7, 8, 9]).outBytes = [3, 7, 8, 9] :=
  (C4_send_frame ⟨[], []⟩ [7, 8, 9]).1 (by decide)

/-- C5: for every sequence of frames completed by the background decoder,
successive `try_recv` calls yield exactly those messages, one frame per
delivery, in completion order, and then yield `none` once drained; in
particular the stream carrying the frames `[3,"abc"]`, `[0,""]`,
`[5,"hello"]` decodes to exactly those three messages in order. -/
theorem C5_fifo_order (out : List Nat) (frames : List (List Nat)) (k : Nat) :
    TcpSocket.recvTrace ⟨out, frames⟩ (frames.length + k)
        = frames.map some ++ List.replicate k none ∧
    framesCompleted [3, 97, 98, 99, 0, 5, 104, 101, 108, 108, 111]
        = [[97, 98, 99], [], [104, 101, 108, 108, 111]] := by
  exact ⟨recvTrace_queue frames out k, by decide⟩

/-- C6: on the background reader thread every read/decode failure is
swallowed and the loop retries: an `Err` outcome delivers nothing, is
never surfaced to the caller, and never terminates the loop — the
deliveries are exactly the completed frames of the remaining outcomes,
including those after the failure. -/
theorem C6_errors_swallowed
    (pre post : List (Except Unit (Option (List Nat)))) :
    readerLoopRun (pre ++ .error () :: post) = readerLoopRun (pre ++ post) ∧
    readerLoopRun (pre ++ post) = readerLoopRun pre ++ readerLoopRun post ∧
    readerLoopRun pre = pre.filterMap okSome ∧
    readerLoopRun [.error ()] = [] := by
  simp [readerLoopRun, foldl_readerLoopStep, readerLoopStep, okSome,
    List.filterMap_append]

/-- C7: for every sequence of header and query append operations on a
RequestBuilder, the builder — and the ureq request assembled by the
threaded send's application loops — carries all appended pairs with order
and multiplicity preserved, while url, method and body are untouched by
the appends; `body(text)` instead overwrites, last write wins. -/
theorem C7_append_semantics (b : RequestBuilder) (ops : List BuilderOp)
    (s t : String) :
    (applyOps b ops).headers = b.headers ++ hPairs ops ∧
    (applyOps b ops).query = b.query ++ qPairs ops ∧
    (applyOps b ops).url = b.url ∧
    (applyOps b ops).method = b.method ∧
    (applyOps b ops).body = b.body ∧
    ((b.body' s).body' t).body = some t ∧
    (sendLoops (applyOps b ops)).hdrs = b.headers ++ hPairs ops ∧
    (sendLoops (applyOps b ops)).queryParams = b.query ++ qPairs ops := by
  simp [applyOps_eq, sendLoops_eq, RequestBuilder.body']

/-- C8: the cooperative send maps Post/Put/Get/Delete to the scheme codes
0/1/2/3, issues exactly one host call — whose url is the original url
when the query list is empty and otherwise the original url, `?`, and the
unencoded `&`-joined `key=value` pairs in insertion order, and whose
headers are the builder's pairs passed through — and returns the host's
correlation id immediately. -/
theorem C8_wasm_send (b : RequestBuilder) (host : HostCall → Int) :
    (schemeCode .Post = 0 ∧ schemeCode .Put = 1 ∧
      schemeCode .Get = 2 ∧ schemeCode .Delete = 3) ∧
    (sendWasm b host).1 =
      [⟨schemeCode b.method, buildUrl b, b.body.getD "", b.headers⟩] ∧
    (sendWasm b host).2.cid =
      host ⟨schemeCode b.method, buildUrl b, b.body.getD "", b.headers⟩ ∧
    (b.query = [] → buildUrl b = b.url) ∧
    (b.query ≠ [] →
      buildUrl b = b.url ++ "?" ++ joinQuerySpec b.query) := by
  refine ⟨⟨rfl, rfl, rfl, rfl⟩, rfl, rfl, fun h => ?_, fun h => ?_⟩
  · simp [buildUrl, h]
  · simp [buildUrl, List.isEmpty_iff, h, joinAmp_eq_spec]

/-- C8, witness: a builder with two query pairs issues one host call with
scheme code 2 (Get) and the `&`-joined query suffix on the url. -/
theorem C8_witness :
    buildUrl ⟨"http://a", .Get, [], [("k", "v"), ("x", "y")], none⟩
        = "http://a?k=v&x=y" :=
  ((C8_wasm_send ⟨"http://a", .Get, [], [("k", "v"), ("x", "y")], none⟩
      (fun _ => 0)).2.2.2.2 (by decide)).trans (by decide)

/-- C9: when the delivered outcome is an error, `try_recv_bytes` returns
`none` — indistinguishable from pending — while consuming the one-shot
value, so afterwards neither `try_recv_bytes` nor `try_recv_str` can ever
observe the error again. -/
theorem C9_error_consumed (e : HttpError) (n : Nat) :
    (Request.mk (.delivered (.error e))).try_recv_bytes
        = (none, ⟨.exhausted⟩) ∧
    Request.pollBytesTrace ⟨.exhausted⟩ n = List.replicate n none ∧
    Request.pollStrTrace ⟨.exhausted⟩ n = List.replicate n none := by
  exact ⟨by simp [Request.try_recv_bytes, OneShot.tryRecv],
    pollBytesTrace_exhausted n, pollStrTrace_exhausted n⟩

/-- C10: `RequestBuilder::new(url)` takes only the url from its argument
and defaults the method to Get, the header and query sequences to empty,
and the body to absent. -/
theorem C10_new_defaults (url : String) :
    (RequestBuilder.new url).url = url ∧
    (RequestBuilder.new url).method = .Get ∧
    (RequestBuilder.new url).headers = [] ∧
    (RequestBuilder.new url).query = [] ∧
    (RequestBuilder.new url).body = none := by
  exact ⟨rfl, rfl, rfl, rfl, rfl⟩

end QuadNet
